import Mathlib

/-!
Shallow embedding of the BGP peering core of the sdet-net repository
(file src/tester-service/src/tester_service/services/bgp.py and its data
model src/tester-service/src/tester_service/services/bgp_models.py),
together with theorems settling the frozen claims about it.

Modelling conventions, chosen once and used throughout:

* Python `bytes` values are `List Nat`; every byte produced by the embedded
  code is < 256, but theorem statements quantify over arbitrary naturals
  where the code itself never range-checks.
* `datetime.now()` timestamps are effects irrelevant to every claim; the
  message records therefore omit the timestamp field (all other fields of
  the pydantic models are kept).  Where `start_connection` stores
  timestamps, an explicit `now : Nat` parameter stands for the clock.
* A dotted-quad router id such as "2.2.2.2" is represented by its list of
  octets `[2, 2, 2, 2]`.  The source converts string to octets with
  `ip_to_bytes` (split on ".", int(), bytes()) and back with
  `".".join(map(str, octets))`; both directions are modelled on the octet
  lists, on which the dotted string representation is a bijection for
  canonical quads.
* Fallible Python code (struct.unpack / struct.pack errors, IndexError
  from subscripting, pydantic ValidationError) is modelled in
  `Except String`.  The pydantic layer matters: the repository uses
  pydantic v2 (it imports pydantic_settings), and v2 rejects `None` for a
  `List[...]` field and rejects a Python list for a `Dict[str, Any]`
  field.  Every model-construction site in bgp.py was checked against the
  field annotations of bgp_models.py; the sites that fail validation are
  modelled as errors and marked with a `pydantic:` comment below.
* Python dict literals used as `details` payloads carry exactly one
  human-readable string (under a key "error", "note" or "info"); the
  embedding keeps the string and drops the constant key.
-/

namespace SdetNet

/-- Byte strings of the Python source, as lists of naturals. -/
abbrev Bytes := List Nat

/-- Python subscript `l[i]`: raises IndexError when out of range. -/
def pyIndex (l : Bytes) (i : Nat) : Except String Nat :=
  match l[i]? with
  | some b => .ok b
  | none => .error "IndexError: index out of range"

/-- Python slice `l[a:b]` for nonnegative bounds: lenient, never raises. -/
def pySlice (l : List Nat) (a b : Nat) : List Nat :=
  (l.take b).drop a

/-- Big-endian value of a byte string, Python `int.from_bytes(l, "big")`. -/
def beVal (l : Bytes) : Nat :=
  l.foldl (fun acc b => 256 * acc + b) 0

/-- Python `struct.unpack("!H", l)`: exactly two bytes, big-endian. -/
def unpackH (l : Bytes) : Except String Nat :=
  match l with
  | [a, b] => .ok (256 * a + b)
  | _ => .error "struct.error: unpack requires a buffer of 2 bytes"

/-- Python `struct.unpack("!HB", l)`: exactly three bytes. -/
def unpackHB (l : Bytes) : Except String (Nat × Nat) :=
  match l with
  | [a, b, c] => .ok (256 * a + b, c)
  | _ => .error "struct.error: unpack requires a buffer of 3 bytes"

/-- Python `struct.unpack("!BB", l)`: exactly two bytes. -/
def unpackBB (l : Bytes) : Except String (Nat × Nat) :=
  match l with
  | [a, b] => .ok (a, b)
  | _ => .error "struct.error: unpack requires a buffer of 2 bytes"

/-- Python `struct.unpack("!I", l)`: exactly four bytes, big-endian. -/
def unpackI (l : Bytes) : Except String Nat :=
  match l with
  | [a, b, c, d] => .ok (16777216 * a + 65536 * b + 256 * c + d)
  | _ => .error "struct.error: unpack requires a buffer of 4 bytes"

/-- Python `struct.pack("!B", n)`: one byte, range-checked. -/
def packB (n : Nat) : Except String Bytes :=
  if n < 256 then .ok [n]
  else .error "struct.error: ubyte format requires 0 <= number <= 255"

/-- Python `struct.pack("!H", n)`: two big-endian bytes, range-checked. -/
def packH (n : Nat) : Except String Bytes :=
  if n < 65536 then .ok [n / 256, n % 256]
  else .error "struct.error: ushort format requires 0 <= number <= 65535"

/-- Python `struct.pack` "4s" item: truncate to 4 bytes, pad with zeros. -/
def pack4s (l : Bytes) : Bytes :=
  l.take 4 ++ List.replicate (4 - l.length) 0

/-- Lowercase hex digit of a nibble, as Python bytes.hex() prints it. -/
def hexDigitChar (n : Nat) : Char :=
  if n < 10 then Char.ofNat (48 + n) else Char.ofNat (87 + n)

/-- Two lowercase hex digits of one byte. -/
def byteHex (n : Nat) : String :=
  String.mk [hexDigitChar (n % 256 / 16), hexDigitChar (n % 16)]

/-- Python `l.hex()`. -/
def bytesHex (l : Bytes) : String :=
  String.join (l.map byteHex)

/-- UTF-8 bytes of an ASCII string (used where the source passes a hex
    string to a pydantic bytes field, which coerces it through utf-8). -/
def asciiBytes (s : String) : Bytes :=
  s.data.map Char.toNat

/-- Python `".".join(map(str, l))`. -/
def dottedJoin (l : Bytes) : String :=
  String.intercalate "." (l.map toString)

/-- The all-0xFF 16-byte BGP marker. -/
def bgpMarker : Bytes := List.replicate 16 255

/-- BGPConfig of bgp_models.py; router_id is kept as its octet list. -/
structure BGPConfig where
  as_number : Nat
  router_id : List Nat
  hold_time : Nat
  bgp_version : Nat
  remote_host : String
  remote_port : Nat
deriving DecidableEq

/-- Default BGPConfig, from the field defaults of core/settings.py. -/
def defaultBGPConfig : BGPConfig :=
  { as_number := 65001
    router_id := [2, 2, 2, 2]
    hold_time := 180
    bgp_version := 4
    remote_host := "frr"
    remote_port := 179 }

/-- BGPCapability of bgp_models.py: code, declared length, raw value. -/
structure BGPCapability where
  code : Nat
  length : Nat
  value : Bytes
deriving DecidableEq

/-- One decoded UPDATE path attribute, the dict appended at bgp.py:200.
    The source stores the value as a hex string; readable is the output of
    the per-code pretty printer. -/
structure PathAttr where
  flags : Nat
  code : Nat
  length : Nat
  value : String
  readable : String
deriving DecidableEq

/-- The decoded message records of bgp_models.py as a closed sum.  Each
    constructor carries the common fields length and direction, then its
    own payload; message_type is stored only for the unknown variant,
    where the source varies it ("UNKNOWN" from parse_bgp_message and
    decode_update_message, "KEEPALIVE" from decode_keepalive_message).
    The details dict is kept as its single reason/info string. -/
inductive BGPMessage where
  | openMsg (length : Nat) (direction : String) (version : Nat)
      (as_number : Nat) (hold_time : Nat) (router_id : Bytes)
      (capabilities : List BGPCapability)
  | keepaliveMsg (length : Nat) (direction : String) (details : String)
  | updateMsg (length : Nat) (direction : String)
      (withdrawn_routes : List String) (path_attributes : List PathAttr)
      (nlri : List String)
  | notificationMsg (length : Nat) (direction : String)
      (error_code : Nat) (error_subcode : Nat) (data : Bytes)
  | unknownMsg (length : Nat) (direction : String) (message_type : String)
      (raw_data : Bytes) (details : String)
deriving DecidableEq

/-- Stored direction field of a message record. -/
def BGPMessage.direction : BGPMessage → String
  | .openMsg _ d _ _ _ _ _ => d
  | .keepaliveMsg _ d _ => d
  | .updateMsg _ d _ _ _ => d
  | .notificationMsg _ d _ _ _ => d
  | .unknownMsg _ d _ _ _ => d

/-- Stored message_type field of a message record.  Every construction
    site in bgp.py passes the fixed tag for the non-unknown variants. -/
def BGPMessage.message_type : BGPMessage → String
  | .openMsg _ _ _ _ _ _ _ => "OPEN"
  | .keepaliveMsg _ _ _ => "KEEPALIVE"
  | .updateMsg _ _ _ _ _ => "UPDATE"
  | .notificationMsg _ _ _ _ _ => "NOTIFICATION"
  | .unknownMsg _ _ mt _ _ => mt

/-- BGPManager.ip_to_bytes on the octet view of the dotted quad: Python
    bytes() raises ValueError when a component is not a byte. -/
def ip_to_bytes (ip : List Nat) : Except String Bytes :=
  if ip.all (fun b => b < 256) then .ok ip
  else .error "ValueError: bytes must be in range 0 to 255"

/-- BGPManager.build_open_message: marker, length, type 1, then
    struct.pack of version, AS, hold time, router id ("4s") and a zero
    optional-parameters length.  Range errors of bytes()/struct.pack are
    surfaced in the order the source evaluates them. -/
def build_open_message (cfg : BGPConfig) : Except String Bytes := do
  let bgp_id ← ip_to_bytes cfg.router_id
  let vb ← packB cfg.bgp_version
  let ab ← packH cfg.as_number
  let hb ← packH cfg.hold_time
  let payload := vb ++ ab ++ hb ++ pack4s bgp_id ++ [0]
  let lenBytes ← packH (19 + payload.length)
  .ok (bgpMarker ++ lenBytes ++ [1] ++ payload)

/-- BGPManager.build_keepalive_message: marker, length 19, type 4. -/
def build_keepalive_message : Bytes :=
  bgpMarker ++ [0, 19, 4]

/-- BGPManager._decode_path_attribute (underscore dropped).  ORIGIN
    subscripts value[0] and MED/LOCAL_PREF unpack exactly four bytes, so
    both can raise; the remaining codes never do. -/
def decode_path_attribute (code : Nat) (value : Bytes) : Except String String :=
  if code = 1 then
    match pyIndex value 0 with
    | .error e => .error e
    | .ok b =>
      let name := if b = 0 then "IGP" else if b = 1 then "EGP"
        else if b = 2 then "INCOMPLETE" else "Unknown"
      .ok ("ORIGIN=" ++ name)
  else if code = 2 then .ok ("AS_PATH=" ++ bytesHex value)
  else if code = 3 then .ok ("NEXT_HOP=" ++ dottedJoin value)
  else if code = 4 then
    match unpackI value with
    | .error e => .error e
    | .ok n => .ok ("MED=" ++ toString n)
  else if code = 5 then
    match unpackI value with
    | .error e => .error e
    | .ok n => .ok ("LOCAL_PREF=" ++ toString n)
  else .ok ("Attr[" ++ toString code ++ "]=" ++ bytesHex value)

/-- One iteration of the path-attribute while-loop of
    decode_update_message (bgp.py:186-206): flags and code bytes, a
    length field whose width is one byte, or two big-endian bytes when
    flag bit 0x10 is set, then the value slice.  Returns the parsed
    attribute and the position after the entry. -/
def attrStep (payload : Bytes) (pos : Nat) : Except String (PathAttr × Nat) :=
  match pyIndex payload pos with
  | .error e => .error e
  | .ok flags =>
    match pyIndex payload (pos + 1) with
    | .error e => .error e
    | .ok code =>
      if flags &&& 16 ≠ 0 then
        match unpackH (pySlice payload (pos + 2) (pos + 4)) with
        | .error e => .error e
        | .ok attr_len =>
          let attr_value := pySlice payload (pos + 4) (pos + 4 + attr_len)
          match decode_path_attribute code attr_value with
          | .error e => .error e
          | .ok readable =>
            .ok (⟨flags, code, attr_len, bytesHex attr_value, readable⟩,
              pos + 4 + attr_len)
      else
        match pyIndex payload (pos + 2) with
        | .error e => .error e
        | .ok attr_len =>
          let attr_value := pySlice payload (pos + 3) (pos + 3 + attr_len)
          match decode_path_attribute code attr_value with
          | .error e => .error e
          | .ok readable =>
            .ok (⟨flags, code, attr_len, bytesHex attr_value, readable⟩,
              pos + 3 + attr_len)

/-- Each successful attrStep strictly advances the position (by at least
    the three header bytes), which terminates the attribute loop. -/
theorem attrStep_lt (payload : Bytes) (pos : Nat) (a : PathAttr) (next : Nat)
    (h : attrStep payload pos = .ok (a, next)) : pos + 3 ≤ next := by
  unfold attrStep at h
  repeat' split at h
  all_goals try simp at h
  all_goals repeat' split at h
  all_goals simp at h
  all_goals obtain ⟨h1, h2⟩ := h
  all_goals omega

/-- The path-attribute while-loop (while pos < path_attr_end) of
    decode_update_message.  Returns the attribute list and the final
    position, which the source reuses as the start of the NLRI section. -/
def attrLoop (payload : Bytes) (pos endPos : Nat) :
    Except String (List PathAttr × Nat) :=
  if h : pos < endPos then
    match hs : attrStep payload pos with
    | .error e => .error e
    | .ok (a, next) =>
      match attrLoop payload next endPos with
      | .error e => .error e
      | .ok (attrs, finalPos) => .ok (a :: attrs, finalPos)
  else .ok ([], pos)
termination_by endPos - pos
decreasing_by
  have := attrStep_lt payload pos a next hs
  omega

/-- The NLRI-style prefix while-loop used twice by decode_update_message
    (withdrawn routes, bgp.py:170-178, and NLRI, bgp.py:210-217): a
    one-byte prefix bit length, ceil(len/8) address bytes, zero-padded to
    four octets for display.  Returns the routes and the final position. -/
def prefixLoop (payload : Bytes) (pos endPos : Nat) :
    Except String (List String × Nat) :=
  if h : pos < endPos then
    match pyIndex payload pos with
    | .error e => .error e
    | .ok plen =>
      let pbytes := (plen + 7) / 8
      let pfx := pySlice payload (pos + 1) (pos + 1 + pbytes)
      let bits := pfx ++ List.replicate (4 - pbytes) 0
      let route := dottedJoin bits ++ "/" ++ toString plen
      match prefixLoop payload (pos + 1 + pbytes) endPos with
      | .error e => .error e
      | .ok (routes, finalPos) => .ok (route :: routes, finalPos)
  else .ok ([], pos)
termination_by endPos - pos
decreasing_by omega

/-- The three decoded sections of a well-parsed UPDATE body. -/
structure ParsedUpdate where
  withdrawn_routes : List String
  path_attributes : List PathAttr
  nlri : List String
deriving DecidableEq

/-- Body of the try block of decode_update_message: header unpack, type
    check, withdrawn-routes loop, path-attribute loop, NLRI loop.  Any
    raised exception is the .error case. -/
def update_try (data : Bytes) : Except String ParsedUpdate :=
  match unpackHB (pySlice data 16 19) with
  | .error e => .error e
  | .ok (length, msg_type) =>
    let payload := pySlice data 19 length
    if msg_type ≠ 2 then .error "Not an UPDATE message"
    else
      match unpackH (pySlice payload 0 2) with
      | .error e => .error e
      | .ok withdrawn_len =>
        match prefixLoop payload 2 (2 + withdrawn_len) with
        | .error e => .error e
        | .ok (withdrawn_routes, pos1) =>
          match unpackH (pySlice payload pos1 (pos1 + 2)) with
          | .error e => .error e
          | .ok total_attr_len =>
            match attrLoop payload (pos1 + 2) (pos1 + 2 + total_attr_len) with
            | .error e => .error e
            | .ok (path_attributes, pos2) =>
              match prefixLoop payload pos2 payload.length with
              | .error e => .error e
              | .ok (nlri, _) => .ok ⟨withdrawn_routes, path_attributes, nlri⟩

/-- Message of the pydantic ValidationError raised when a Python list is
    passed for the Dict[str, Any] field path_attributes (pydantic v2). -/
def pydanticDictError : String :=
  "ValidationError: path_attributes Input should be a valid dictionary"

/-- BGPManager.decode_update_message.  When the three-part parse succeeds
    the source builds BGPUpdateMessage(path_attributes=<list>), but the
    field is annotated Dict[str, Any] in bgp_models.py, so pydantic v2
    rejects the list; the except-branch catches that too and returns the
    UNKNOWN record with the raw hex (coerced through utf-8 by the bytes
    field).  Either way the result is an unknownMsg and the read loop is
    never aborted. -/
def decode_update_message (data : Bytes) (direction : String) : BGPMessage :=
  match update_try data with
  | .ok _ =>
    .unknownMsg data.length direction "UNKNOWN" (asciiBytes (bytesHex data))
      ("Failed to decode UPDATE: " ++ pydanticDictError)
  | .error e =>
    .unknownMsg data.length direction "UNKNOWN" (asciiBytes (bytesHex data))
      ("Failed to decode UPDATE: " ++ e)

/-- Inner capability while-loop of BGPManager.parse_optional_params:
    walks (code, len, value) entries of one type-2 optional parameter;
    a truncated two-byte header stops the walk.  The struct.unpack of
    param_value only runs with j + 2 <= length, so the getD defaults are
    never taken. -/
def capsLoop (param_value : Bytes) (j : Nat) : List BGPCapability :=
  if h : j < param_value.length then
    if j + 2 > param_value.length then []
    else
      let cap_code := param_value.getD j 0
      let cap_len := param_value.getD (j + 1) 0
      let cap_value := pySlice param_value (j + 2) (j + 2 + cap_len)
      ⟨cap_code, cap_len, cap_value⟩ :: capsLoop param_value (j + 2 + cap_len)
  else []
termination_by param_value.length - j
decreasing_by omega

/-- Outer optional-parameter while-loop of parse_optional_params: walks
    (type, len, value) entries, descending into type-2 entries. -/
def paramsLoop (opt_bytes : Bytes) (i : Nat) : List BGPCapability :=
  if h : i < opt_bytes.length then
    if i + 2 > opt_bytes.length then []
    else
      let param_type := opt_bytes.getD i 0
      let param_len := opt_bytes.getD (i + 1) 0
      let param_value := pySlice opt_bytes (i + 2) (i + 2 + param_len)
      (if param_type = 2 then capsLoop param_value 0 else []) ++
        paramsLoop opt_bytes (i + 2 + param_len)
  else []
termination_by opt_bytes.length - i
decreasing_by omega

/-- BGPManager.parse_optional_params. -/
def parse_optional_params (opt_bytes : Bytes) : List BGPCapability :=
  paramsLoop opt_bytes 0

/-- BGPCapability._parse_multiprotocol (underscore dropped): the length
    guard checks the declared length field, then value[3] is subscripted,
    which raises when the stored value is shorter. -/
def parse_multiprotocol (c : BGPCapability) : Except String String :=
  if c.length < 4 then .ok "Multiprotocol Extensions (invalid length)"
  else
    let afi := beVal (pySlice c.value 0 2)
    match pyIndex c.value 3 with
    | .error e => .error e
    | .ok safi =>
      let afi_name := if afi = 1 then "IPv4" else if afi = 2 then "IPv6"
        else if afi = 25 then "L2VPN" else "Unknown AFI " ++ toString afi
      .ok ("Multiprotocol Extensions (" ++ afi_name ++ ", SAFI=" ++
        toString safi ++ ")")

/-- BGPCapability._parse_four_octet_asn (underscore dropped): the guard
    is on the declared length field, not on the number of value bytes;
    int.from_bytes accepts any length, so this path never raises. -/
def parse_four_octet_asn (c : BGPCapability) : String :=
  if c.length ≠ 4 then "Four-octet ASN (invalid length)"
  else "Four-octet ASN (AS=" ++ toString (beVal c.value) ++ ")"

/-- BGPCapability._parse_graceful_restart (underscore dropped): guards on
    the declared length, then subscripts value[0]. -/
def parse_graceful_restart (c : BGPCapability) : Except String String :=
  if c.length < 2 then .ok "Graceful Restart (invalid length)"
  else
    match pyIndex c.value 0 with
    | .error e => .error e
    | .ok b =>
      .ok ("Graceful Restart (Restart Time=" ++ toString ((b &&& 15) * 2) ++ "s)")

/-- BGPCapability.human_readable: the per-code dispatch table with the
    unknown-capability fallback.  Codes 67 and 70 map to plain strings in
    the source (the callable() test is false), returned as-is. -/
def human_readable (c : BGPCapability) : Except String String :=
  if c.code = 1 then parse_multiprotocol c
  else if c.code = 2 then .ok "Route Refresh Capability"
  else if c.code = 3 then .ok "Outbound Route Filtering"
  else if c.code = 4 then .ok "Multiple Routes to a Destination (deprecated)"
  else if c.code = 5 then .ok "Extended Next Hop Encoding"
  else if c.code = 64 then parse_graceful_restart c
  else if c.code = 65 then .ok (parse_four_octet_asn c)
  else if c.code = 67 then .ok "Add-path Capability"
  else if c.code = 70 then .ok "Enhanced Route Refresh"
  else
    .ok ("Unknown capability (code=" ++ toString c.code ++ ", value=" ++
      bytesHex c.value ++ ")")

/-- Message of the pydantic ValidationError raised when None is passed
    for the List[BGPCapability] field capabilities of BGPOpenMessage. -/
def pydanticNoneListError : String :=
  "ValidationError: capabilities Input should be a valid list"

/-- BGPManager.decode_open_message.  After the length, marker and type
    guards it unpacks version/AS/hold time/router id/opt_len from bytes
    19..28 (the ten-byte slice always unpacks, length >= 29).  When the
    optional-parameter bytes are empty - in particular whenever
    opt_len = 0, as in every frame built by build_open_message - the
    source passes capabilities=None to BGPOpenMessage, and pydantic
    rejects None for the List[BGPCapability] field, so the call raises
    instead of returning the OPEN record. -/
def decode_open_message (data : Bytes) (direction : String) :
    Except String BGPMessage :=
  if data.length < 29 then .error "Too short for BGP OPEN"
  else if pySlice data 0 16 ≠ bgpMarker then .error "Bad marker"
  else
    let declaredLen := 256 * data.getD 16 0 + data.getD 17 0
    let msg_type := data.getD 18 0
    if msg_type ≠ 1 then .error "Not an OPEN message"
    else
      let version := data.getD 19 0
      let my_as := 256 * data.getD 20 0 + data.getD 21 0
      let hold_time := 256 * data.getD 22 0 + data.getD 23 0
      let bgp_id := pySlice data 24 28
      let opt_len := data.getD 28 0
      let opts := if opt_len > 0 then pySlice data 29 (29 + opt_len) else []
      if opts = [] then .error pydanticNoneListError
      else
        .ok (.openMsg declaredLen direction version my_as hold_time bgp_id
          (parse_optional_params opts))

/-- BGPManager.decode_keepalive_message: total - every branch returns a
    record.  The unpack of data[:19] is guarded by the length check, so
    the getD defaults are never taken; note that even the UNKNOWN records
    of this decoder carry message_type "KEEPALIVE" (from msg_dict). -/
def decode_keepalive_message (data : Bytes) (direction : String) : BGPMessage :=
  if data.length < 19 then
    .unknownMsg data.length direction "KEEPALIVE" data "Message too short for BGP"
  else
    let declaredLen := 256 * data.getD 16 0 + data.getD 17 0
    let msg_type := data.getD 18 0
    if pySlice data 0 16 ≠ bgpMarker then
      .unknownMsg data.length direction "KEEPALIVE" data "Invalid marker"
    else if declaredLen ≠ 19 then
      .unknownMsg data.length direction "KEEPALIVE" data
        ("KEEPALIVE should be 19 bytes, got " ++ toString declaredLen)
    else if msg_type ≠ 4 then
      .unknownMsg data.length direction "KEEPALIVE" data
        ("Not a KEEPALIVE (type " ++ toString msg_type ++ ")")
    else .keepaliveMsg data.length direction "KEEPALIVE received"

/-- Result of BGPManager.parse_bgp_message: the sentinel empty dict
    returned for direction "sent", or a message record. -/
inductive ParseResult where
  | emptyDict
  | msg (m : BGPMessage)
deriving DecidableEq

/-- BGPManager.parse_bgp_message.  Dispatches on the header type byte
    after the sent-direction, length and marker guards.  The except
    branch of the type-1 arm wraps the OPEN decode error into an UNKNOWN
    record (its details value is a dict, so that construction is valid);
    the type-4 decoder is total so its except branch is dead code.  In
    the type-3 except branch and in the final else branch the source
    passes a plain string for the Dict[str, Any] details field of
    BGPUnknownMessage, which pydantic rejects, so those branches raise
    out of parse_bgp_message instead of returning: they are the .error
    cases here. -/
def parse_bgp_message (data : Bytes) (direction : String) :
    Except String ParseResult :=
  if direction = "sent" then .ok .emptyDict
  else if data.length < 19 then
    .ok (.msg (.unknownMsg data.length direction "UNKNOWN" data
      "Too short BGP message"))
  else
    let declaredLen := 256 * data.getD 16 0 + data.getD 17 0
    let msg_type := data.getD 18 0
    let payload := pySlice data 19 declaredLen
    if pySlice data 0 16 ≠ bgpMarker then
      .ok (.msg (.unknownMsg data.length direction "UNKNOWN" data
        "Invalid marker"))
    else if msg_type = 1 then
      match decode_open_message data direction with
      | .ok m => .ok (.msg m)
      | .error e =>
        .ok (.msg (.unknownMsg data.length direction "UNKNOWN" data
          ("Failed to decode OPEN: " ++ e)))
    else if msg_type = 4 then .ok (.msg (decode_keepalive_message data direction))
    else if msg_type = 2 then .ok (.msg (decode_update_message data direction))
    else if msg_type = 3 then
      match pySlice payload 0 2 with
      | [error_code, error_subcode] =>
        .ok (.msg (.notificationMsg data.length direction error_code
          error_subcode (payload.drop 2)))
      | _ => .error "ValidationError: details Input should be a valid dictionary"
    else .error "ValidationError: details Input should be a valid dictionary"

/-- BGPStats of bgp_models.py (connection_uptime, a derived string set
    only by get_stats, is omitted: no claim concerns it). -/
structure BGPStats where
  total_messages_sent : Nat
  total_messages_received : Nat
  open_messages : Nat
  keepalive_messages : Nat
  update_messages : Nat
  notification_messages : Nat
deriving DecidableEq

/-- Zeroed statistics, the initial value in BGPManager.__init__. -/
def initialStats : BGPStats :=
  { total_messages_sent := 0
    total_messages_received := 0
    open_messages := 0
    keepalive_messages := 0
    update_messages := 0
    notification_messages := 0 }

/-- BGPConnectionStatus of bgp_models.py, with datetimes as Nat ticks. -/
structure BGPConnectionStatus where
  connected : Bool
  config : BGPConfig
  last_activity : Option Nat
  messages_sent : Nat
  messages_received : Nat
  connection_start_time : Option Nat
deriving DecidableEq

/-- Mutable state of a BGPManager.  The asyncio reader/writer handles and
    the two background task handles are modelled by their presence. -/
structure BGPManagerState where
  connection_status : BGPConnectionStatus
  reader : Bool
  writer : Bool
  connection_task : Bool
  keepalive_task : Bool
  message_log : List BGPMessage
  stats : BGPStats
deriving DecidableEq

/-- Log retention step of BGPManager.log_message (bgp.py:341-343): after
    an append, a log longer than 1000 entries is cut to its last 1000
    (the Python slice log[-1000:]). -/
def trimLog (l : List BGPMessage) : List BGPMessage :=
  if l.length > 1000 then l.drop (l.length - 1000) else l

/-- Stats update of BGPManager.log_message: one direction counter always,
    plus the per-type counter for the four known message_type tags;
    any other tag (in particular "UNKNOWN") touches no per-type counter. -/
def bumpStats (s : BGPStats) (m : BGPMessage) : BGPStats :=
  let s1 := if m.direction = "sent" then
      { s with total_messages_sent := s.total_messages_sent + 1 }
    else { s with total_messages_received := s.total_messages_received + 1 }
  if m.message_type = "OPEN" then
    { s1 with open_messages := s1.open_messages + 1 }
  else if m.message_type = "KEEPALIVE" then
    { s1 with keepalive_messages := s1.keepalive_messages + 1 }
  else if m.message_type = "UPDATE" then
    { s1 with update_messages := s1.update_messages + 1 }
  else if m.message_type = "NOTIFICATION" then
    { s1 with notification_messages := s1.notification_messages + 1 }
  else s1

/-- BGPManager.log_message: the sentinel empty dict (what
    parse_bgp_message returns for direction "sent") is ignored outright;
    a message record is appended, the log trimmed to 1000 entries, and
    the counters bumped. -/
def log_message (st : BGPManagerState) (pr : ParseResult) : BGPManagerState :=
  match pr with
  | .emptyDict => st
  | .msg m =>
    { st with
      message_log := trimLog (st.message_log ++ [m])
      stats := bumpStats st.stats m }

/-- Outcome of the awaited asyncio.open_connection call, supplied as a
    parameter: the transport either yields a stream pair or raises. -/
inductive ConnAttempt where
  | success
  | failure (err : String)
deriving DecidableEq

/-- BGPManager.start_connection.  Raises immediately when already
    connected (no state is touched before that guard).  Otherwise the
    state mutations follow the source order: stream handles, connected
    flag and timestamps, then the OPEN frame is built and sent -
    parse_bgp_message(open_msg, direction="sent") returns the sentinel
    empty dict, so log_message leaves log and stats untouched - and the
    two background tasks are created.  Any exception inside the try
    block (transport failure, a config build_open_message cannot pack)
    resets connected to False and re-raises wrapped. -/
def start_connection (st : BGPManagerState) (attempt : ConnAttempt)
    (now : Nat) : BGPManagerState × Except String String :=
  if st.connection_status.connected then
    (st, .error "BGP connection already active")
  else
    match attempt with
    | .failure e =>
      ({ st with connection_status := { st.connection_status with connected := false } },
        .error ("Failed to establish BGP connection: " ++ e))
    | .success =>
      let st1 := { st with
        reader := true
        writer := true
        connection_status := { st.connection_status with
          connected := true
          connection_start_time := some now
          last_activity := some now } }
      match build_open_message st.connection_status.config with
      | .error e =>
        ({ st1 with connection_status := { st1.connection_status with connected := false } },
          .error ("Failed to establish BGP connection: " ++ e))
      | .ok open_msg =>
        match parse_bgp_message open_msg "sent" with
        | .ok sent =>
          let st2 := log_message st1 sent
          ({ st2 with keepalive_task := true, connection_task := true },
            .ok "connected")
        | .error e =>
          ({ st1 with connection_status := { st1.connection_status with connected := false } },
            .error ("Failed to establish BGP connection: " ++ e))

/-- BGPManager.get_message_log.  The source returns message_log[-limit:]
    when the log is nonempty: for limit > 0 that is the suffix of the
    most recent limit entries, but Python evaluates -0 as 0, so limit = 0
    returns the whole log rather than no entries. -/
def get_message_log (st : BGPManagerState) (limit : Nat) : List BGPMessage :=
  if st.message_log = [] then []
  else if limit = 0 then st.message_log
  else st.message_log.drop (st.message_log.length - limit)

/-! Concrete fixtures used by witnesses and counterexamples. -/

/-- The 29-byte OPEN frame built from the default configuration:
    AS 65001 = 0xFDE9, hold time 180, router id 2.2.2.2, opt_len 0. -/
def defaultOpenFrame : Bytes :=
  bgpMarker ++ [0, 29, 1, 4, 253, 233, 0, 180, 2, 2, 2, 2, 0]

/-- A successfully decoded KEEPALIVE record. -/
def kaMsg : BGPMessage := .keepaliveMsg 19 "received" "KEEPALIVE received"

/-- A freshly initialized manager: not connected, empty log, zero stats
    (BGPManager.__init__). -/
def stIdle : BGPManagerState :=
  { connection_status :=
      { connected := false
        config := defaultBGPConfig
        last_activity := none
        messages_sent := 0
        messages_received := 0
        connection_start_time := none }
    reader := false
    writer := false
    connection_task := false
    keepalive_task := false
    message_log := []
    stats := initialStats }

/-- A manager with an active session. -/
def stConnected : BGPManagerState :=
  { stIdle with
    reader := true
    writer := true
    connection_task := true
    keepalive_task := true
    connection_status := { stIdle.connection_status with
      connected := true
      connection_start_time := some 7
      last_activity := some 7 } }

/-- A manager whose log holds exactly one message. -/
def stOneMsg : BGPManagerState :=
  { stIdle with message_log := [kaMsg] }

/-! Claim theorems. -/

/-- C1: the claim says decode(encode_open(config)) reconstructs the OPEN
    record for every valid SessionConfig.  The code violates it: encoding
    the default (valid) config gives the expected 29-byte frame with
    opt_len = 0, but decoding that frame hands capabilities=None to the
    pydantic model whose field is List[BGPCapability], so
    decode_open_message raises and parse_bgp_message returns an UNKNOWN
    record carrying the wrapped validation error, not an OPEN record. -/
theorem c1_open_roundtrip_fails :
    build_open_message defaultBGPConfig = .ok defaultOpenFrame ∧
    parse_bgp_message defaultOpenFrame "received" =
      .ok (.msg (.unknownMsg 29 "received" "UNKNOWN" defaultOpenFrame
        ("Failed to decode OPEN: " ++ pydanticNoneListError))) :=
  ⟨rfl, rfl⟩

/-- C2: any frame shorter than 19 bytes makes parse_bgp_message (with
    direction "received") return the UNKNOWN record with the too-short
    reason; no exception escapes. -/
theorem c2_short_input_unknown (data : Bytes) (h : data.length < 19) :
    parse_bgp_message data "received" =
      .ok (.msg (.unknownMsg data.length "received" "UNKNOWN" data
        "Too short BGP message")) := by
  unfold parse_bgp_message
  rw [if_neg (by decide), if_pos h]

/-- Witness for C2 at the empty byte string. -/
theorem c2_short_input_unknown_witness :
    ([] : Bytes).length < 19 ∧
    parse_bgp_message [] "received" =
      .ok (.msg (.unknownMsg 0 "received" "UNKNOWN" []
        "Too short BGP message")) :=
  ⟨by decide, c2_short_input_unknown [] (by decide)⟩

/-- C7: when a session is already active, start_connection fails on its
    very first guard with the already-active error and returns the state
    exactly as it was: connection status, handles, tasks, log and stats
    are all untouched by the failed call. -/
theorem c7_start_when_connected (st : BGPManagerState) (attempt : ConnAttempt)
    (now : Nat) (h : st.connection_status.connected = true) :
    start_connection st attempt now = (st, .error "BGP connection already active") := by
  unfold start_connection
  rw [if_pos h]

/-- Witness for C7 on a connected manager. -/
theorem c7_start_when_connected_witness :
    stConnected.connection_status.connected = true ∧
    start_connection stConnected .success 0 =
      (stConnected, .error "BGP connection already active") :=
  ⟨rfl, c7_start_when_connected stConnected .success 0 rfl⟩

/-- C8 counterexample: the claim keys the invalid-length result to the
    number of value bytes, but _parse_four_octet_asn checks the declared
    length field.  parse_optional_params builds exactly such a mismatched
    record from a truncated capability (declared length 4, only 3 value
    bytes survive), and humanizing it yields an AS string computed from
    the 3 bytes, not the invalid-length string the claim requires. -/
theorem c8_value_length_counterexample :
    parse_optional_params [2, 5, 65, 4, 0, 1, 0] =
      [{ code := 65, length := 4, value := [0, 1, 0] }] ∧
    human_readable { code := 65, length := 4, value := [0, 1, 0] } =
      .ok "Four-octet ASN (AS=256)" ∧
    "Four-octet ASN (AS=256)" ≠ "Four-octet ASN (invalid length)" := by
  refine ⟨?_, rfl, by decide⟩
  simp [parse_optional_params, paramsLoop, capsLoop, pySlice]

/-- C8 amended: the four-octet ASN humanization is decided by the
    declared length field, not by the number of value bytes.  With
    declared length 4 and value bytes 00 01 00 01 it yields AS=65537;
    with any declared length other than 4 it yields the invalid-length
    string whatever the value; and the code-65 path never raises. -/
theorem c8_four_octet_asn (len : Nat) (v : Bytes) (hlen : len ≠ 4) :
    human_readable { code := 65, length := 4, value := [0, 1, 0, 1] } =
      .ok "Four-octet ASN (AS=65537)" ∧
    human_readable { code := 65, length := len, value := v } =
      .ok "Four-octet ASN (invalid length)" ∧
    (∀ (len2 : Nat) (v2 : Bytes), ∃ s,
      human_readable { code := 65, length := len2, value := v2 } = .ok s) := by
  refine ⟨rfl, ?_, ?_⟩
  · simp [human_readable, parse_four_octet_asn, hlen]
  · intro len2 v2
    by_cases h2 : len2 = 4
    · refine ⟨"Four-octet ASN (AS=" ++ toString (beVal v2) ++ ")", ?_⟩
      simp [human_readable, parse_four_octet_asn, h2]
    · refine ⟨"Four-octet ASN (invalid length)", ?_⟩
      simp [human_readable, parse_four_octet_asn, h2]

/-- Witness for C8 amended at declared length 3. -/
theorem c8_four_octet_asn_witness :
    (3 : Nat) ≠ 4 ∧
    human_readable { code := 65, length := 3, value := [0, 1, 0] } =
      .ok "Four-octet ASN (invalid length)" :=
  ⟨by decide, (c8_four_octet_asn 3 [0, 1, 0] (by decide)).2.1⟩

/-- C9 counterexample: the claim requires get_message_log 0 to be empty,
    but Python evaluates log[-0:] as log[0:], so a one-message log is
    returned whole. -/
theorem c9_limit_zero_counterexample :
    get_message_log stOneMsg 0 = [kaMsg] ∧ get_message_log stOneMsg 0 ≠ [] :=
  ⟨rfl, by decide⟩

/-- C9 amended: for every positive limit the result is exactly the most
    recent min(limit, length) messages in insertion order, newest last
    (it is the matching suffix of the log); limit = 0 however returns the
    entire log, a consequence of the Python slice log[-0:]. -/
theorem c9_get_message_log (st : BGPManagerState) (limit : Nat)
    (h : 0 < limit) :
    (get_message_log st limit).length = min limit st.message_log.length ∧
    st.message_log.take (st.message_log.length - limit) ++
      get_message_log st limit = st.message_log ∧
    get_message_log st 0 = st.message_log := by
  have hne : limit ≠ 0 := by omega
  by_cases hl : st.message_log = []
  · simp [get_message_log, hl]
  · refine ⟨?_, ?_, ?_⟩
    · simp only [get_message_log, hl, hne, if_false, if_neg]
      rw [List.length_drop]
      omega
    · simp only [get_message_log, hl, hne, if_false, if_neg]
      exact List.take_append_drop _ _
    · simp [get_message_log, hl]

/-- Witness for C9 amended at limit 1 on a one-message log. -/
theorem c9_get_message_log_witness :
    0 < 1 ∧
    (get_message_log stOneMsg 1).length = min 1 stOneMsg.message_log.length :=
  ⟨by decide, (c9_get_message_log stOneMsg 1 (by decide)).1⟩

/-- C3 counterexample: starting a fresh manager succeeds and sends the
    OPEN frame, yet the claim that this frame is appended to the log as a
    "sent" message fails: the log stays empty and the sent counter stays
    zero, because parse_bgp_message(open_msg, direction="sent") is the
    empty sentinel that log_message drops. -/
theorem c3_open_not_logged_counterexample :
    (start_connection stIdle .success 0).2 = .ok "connected" ∧
    (start_connection stIdle .success 0).1.message_log = [] ∧
    (start_connection stIdle .success 0).1.stats.total_messages_sent = 0 :=
  ⟨rfl, rfl, rfl⟩

/-- C3 amended: start_connection does send the OPEN frame, but logging is
    suppressed for the sent direction: parse_bgp_message returns the
    empty sentinel for any data with direction "sent", so the successful
    start leaves the message log and all counters exactly as they were
    and no "sent" entry exists. -/
theorem c3_sent_open_suppressed (st : BGPManagerState) (now : Nat)
    (frame : Bytes) (hconn : st.connection_status.connected = false)
    (hbuild : build_open_message st.connection_status.config = .ok frame) :
    parse_bgp_message frame "sent" = .ok .emptyDict ∧
    (start_connection st .success now).1.message_log = st.message_log ∧
    (start_connection st .success now).1.stats = st.stats ∧
    (start_connection st .success now).2 = .ok "connected" := by
  have hparse : parse_bgp_message frame "sent" = .ok .emptyDict := by
    unfold parse_bgp_message
    rw [if_pos rfl]
  refine ⟨hparse, ?_, ?_, ?_⟩
  all_goals simp [start_connection, hconn, hbuild, hparse, log_message]

/-- Witness for C3 amended on the fresh manager and its default frame. -/
theorem c3_sent_open_suppressed_witness :
    stIdle.connection_status.connected = false ∧
    build_open_message stIdle.connection_status.config = .ok defaultOpenFrame ∧
    (start_connection stIdle .success 0).1.message_log = stIdle.message_log :=
  ⟨rfl, rfl, (c3_sent_open_suppressed stIdle 0 defaultOpenFrame rfl rfl).2.1⟩

/-- C4: a type-4 frame (valid marker, type byte 4, any trailer) whose
    declared two-byte length is not 19 decodes to an UNKNOWN record whose
    reason names the offending declared length; parse_bgp_message returns
    it normally, no exception escapes. -/
theorem c4_keepalive_bad_length (data : Bytes) (b16 b17 : Nat) (rest : Bytes)
    (hdata : data = bgpMarker ++ b16 :: b17 :: 4 :: rest)
    (hlen : 256 * b16 + b17 ≠ 19) :
    parse_bgp_message data "received" =
      .ok (.msg (.unknownMsg data.length "received" "KEEPALIVE" data
        ("KEEPALIVE should be 19 bytes, got " ++ toString (256 * b16 + b17)))) := by
  subst hdata
  unfold parse_bgp_message decode_keepalive_message
  simp only [bgpMarker, List.replicate, List.cons_append, List.nil_append,
    List.length_cons, List.getD_cons_succ, List.getD_cons_zero, pySlice,
    List.take_succ_cons, List.drop_zero, List.take_zero]
  rw [if_neg (by decide)]
  rw [if_neg (by omega)]
  rw [if_neg (by simp)]
  rw [if_neg (by decide)]
  rw [if_pos trivial]
  rw [if_neg (by omega)]
  rw [if_neg (by simp)]
  rw [if_pos hlen]

/-- Witness for C4 at declared length zero. -/
theorem c4_keepalive_bad_length_witness :
    256 * 0 + 0 ≠ 19 ∧
    parse_bgp_message (bgpMarker ++ 0 :: 0 :: 4 :: []) "received" =
      .ok (.msg (.unknownMsg (bgpMarker ++ 0 :: 0 :: 4 :: []).length
        "received" "KEEPALIVE" (bgpMarker ++ 0 :: 0 :: 4 :: [])
        ("KEEPALIVE should be 19 bytes, got " ++ toString (256 * 0 + 0)))) :=
  ⟨by decide, c4_keepalive_bad_length _ 0 0 [] rfl (by decide)⟩

/-- Specification-side view of the retention policy: the last (at most)
    1000 entries of a list. -/
def lastThousand (l : List BGPMessage) : List BGPMessage :=
  l.drop (l.length - 1000)

/-- One append-and-trim step keeps the log equal to the last 1000 of the
    full append history. -/
theorem trimLog_lastThousand (acc : List BGPMessage) (m : BGPMessage) :
    trimLog (lastThousand acc ++ [m]) = lastThousand (acc ++ [m]) := by
  unfold trimLog lastThousand
  by_cases h : acc.length ≤ 1000
  · have h0 : acc.length - 1000 = 0 := by omega
    rw [h0, List.drop_zero]
    by_cases h2 : (acc ++ [m]).length > 1000
    · rw [if_pos h2]
    · rw [if_neg h2]
      have h3 : (acc ++ [m]).length - 1000 = 0 := by omega
      rw [h3, List.drop_zero]
  · have hlen : (acc.drop (acc.length - 1000)).length = 1000 := by
      rw [List.length_drop]; omega
    have hbig : (acc.drop (acc.length - 1000) ++ [m]).length > 1000 := by
      simp only [List.length_append, hlen, List.length_cons, List.length_nil]
      omega
    have e1 : (acc.drop (acc.length - 1000) ++ [m]).length - 1000 = 1 := by
      simp only [List.length_append, hlen, List.length_cons, List.length_nil]
    have e2 : (acc ++ [m]).length - 1000 = acc.length - 1000 + 1 := by
      rw [List.length_append]
      simp only [List.length_cons, List.length_nil]
      omega
    have e3 : 1 - (acc.drop (acc.length - 1000)).length = 0 := by
      rw [hlen]
    have e4 : acc.length - 1000 + 1 - acc.length = 0 := by omega
    rw [if_pos hbig, e1, e2, List.drop_append_eq_append_drop, e3,
      List.drop_drop, List.drop_append_eq_append_drop, e4]

/-- Folding log_message over any message sequence keeps the log equal to
    the last 1000 entries of the full history. -/
theorem foldLog_lastThousand (msgs : List BGPMessage) (acc : List BGPMessage)
    (st : BGPManagerState) (hst : st.message_log = lastThousand acc) :
    (List.foldl (fun s m => log_message s (.msg m)) st msgs).message_log =
      lastThousand (acc ++ msgs) := by
  induction msgs generalizing st acc with
  | nil => simpa using hst
  | cons m ms ih =>
    simp only [List.foldl_cons]
    have hstep : (log_message st (.msg m)).message_log =
        lastThousand (acc ++ [m]) := by
      simp only [log_message, hst]
      exact trimLog_lastThousand acc m
    have := ih (acc ++ [m]) (log_message st (.msg m)) hstep
    simpa [List.append_assoc] using this

/-- C5: every log_message append preserves the 1000-entry bound, and
    logging 1001 messages into an empty log leaves exactly the last 1000
    in insertion order: the final log is the input minus its first entry,
    so index 0 of the final log is the original message number two. -/
theorem c5_log_retention (msgs : List BGPMessage) (st0 : BGPManagerState)
    (hempty : st0.message_log = []) (hlen : msgs.length = 1001) :
    (∀ (st : BGPManagerState) (pr : ParseResult),
      st.message_log.length ≤ 1000 →
      (log_message st pr).message_log.length ≤ 1000) ∧
    (List.foldl (fun s m => log_message s (.msg m)) st0 msgs).message_log =
      msgs.drop 1 ∧
    (List.foldl (fun s m => log_message s (.msg m)) st0 msgs).message_log.length
      = 1000 ∧
    (List.foldl (fun s m => log_message s (.msg m)) st0 msgs).message_log[0]? =
      msgs[1]? := by
  have hfold : (List.foldl (fun s m => log_message s (.msg m)) st0 msgs).message_log
      = msgs.drop 1 := by
    have h0 : st0.message_log = lastThousand [] := by simp [lastThousand, hempty]
    have := foldLog_lastThousand msgs [] st0 h0
    rw [List.nil_append] at this
    rw [this]
    unfold lastThousand
    rw [hlen]
  refine ⟨?_, hfold, ?_, ?_⟩
  · intro st pr hb
    cases pr with
    | emptyDict => simpa [log_message] using hb
    | msg m =>
      simp only [log_message, trimLog]
      by_cases h : (st.message_log ++ [m]).length > 1000
      · rw [if_pos h, List.length_drop]
        omega
      · rw [if_neg h]
        omega
  · rw [hfold, List.length_drop, hlen]
  · rw [hfold, List.getElem?_drop]

/-- Witness for C5 with 1001 identical keepalive records. -/
theorem c5_log_retention_witness :
    stIdle.message_log = [] ∧
    (List.replicate 1001 kaMsg).length = 1001 ∧
    (List.foldl (fun s m => log_message s (.msg m)) stIdle
      (List.replicate 1001 kaMsg)).message_log.length = 1000 :=
  ⟨rfl, by rw [List.length_replicate],
    (c5_log_retention (List.replicate 1001 kaMsg) stIdle rfl
      (by rw [List.length_replicate])).2.2.1⟩

/-- Sum of the four per-type counters of the statistics. -/
def perTypeSum (s : BGPStats) : Nat :=
  s.open_messages + s.keepalive_messages + s.update_messages +
    s.notification_messages

/-- Sum of the two direction totals of the statistics. -/
def dirSum (s : BGPStats) : Nat :=
  s.total_messages_sent + s.total_messages_received

/-- Componentwise order on statistics records. -/
def statsLE (s t : BGPStats) : Prop :=
  s.total_messages_sent ≤ t.total_messages_sent ∧
  s.total_messages_received ≤ t.total_messages_received ∧
  s.open_messages ≤ t.open_messages ∧
  s.keepalive_messages ≤ t.keepalive_messages ∧
  s.update_messages ≤ t.update_messages ∧
  s.notification_messages ≤ t.notification_messages

/-- One stats bump never decreases any counter. -/
theorem bumpStats_le (s : BGPStats) (m : BGPMessage) :
    statsLE s (bumpStats s m) := by
  unfold statsLE bumpStats
  repeat' split
  all_goals simp

/-- One log_message call never decreases any counter. -/
theorem log_message_stats_le (st : BGPManagerState) (pr : ParseResult) :
    statsLE st.stats (log_message st pr).stats := by
  cases pr with
  | emptyDict =>
    unfold statsLE log_message
    simp
  | msg m => exact bumpStats_le st.stats m

/-- Transitivity of the componentwise stats order. -/
theorem statsLE_trans (a b c : BGPStats) (h1 : statsLE a b) (h2 : statsLE b c) :
    statsLE a c := by
  unfold statsLE at h1 h2 ⊢
  omega

/-- One stats bump adds exactly one to the direction totals and at most
    one to the per-type counters. -/
theorem bumpStats_sums (s : BGPStats) (m : BGPMessage) :
    dirSum (bumpStats s m) = dirSum s + 1 ∧
    perTypeSum (bumpStats s m) ≤ perTypeSum s + 1 := by
  unfold dirSum perTypeSum bumpStats
  repeat' split
  all_goals simp
  all_goals omega

/-- C10: over any sequence of log_message calls every counter is
    non-decreasing; starting from zeroed stats the per-type counters
    never sum to more than the direction totals; and a message whose
    message_type is "UNKNOWN" bumps exactly one direction total and no
    per-type counter. -/
theorem c10_stats_invariants :
    (∀ (st : BGPManagerState) (prs : List ParseResult),
      statsLE st.stats (List.foldl log_message st prs).stats) ∧
    (∀ (st : BGPManagerState) (prs : List ParseResult),
      st.stats = initialStats →
      perTypeSum (List.foldl log_message st prs).stats ≤
        dirSum (List.foldl log_message st prs).stats) ∧
    (∀ (st : BGPManagerState) (m : BGPMessage),
      m.message_type = "UNKNOWN" →
      (log_message st (.msg m)).stats.open_messages = st.stats.open_messages ∧
      (log_message st (.msg m)).stats.keepalive_messages =
        st.stats.keepalive_messages ∧
      (log_message st (.msg m)).stats.update_messages =
        st.stats.update_messages ∧
      (log_message st (.msg m)).stats.notification_messages =
        st.stats.notification_messages ∧
      dirSum (log_message st (.msg m)).stats = dirSum st.stats + 1) := by
  have hmono : ∀ (prs : List ParseResult) (st : BGPManagerState),
      statsLE st.stats (List.foldl log_message st prs).stats := by
    intro prs
    induction prs with
    | nil =>
      intro st
      simp only [List.foldl_nil]
      unfold statsLE
      omega
    | cons pr rest ih =>
      intro st
      exact statsLE_trans _ _ _ (log_message_stats_le st pr)
        (by simpa using ih (log_message st pr))
  have hinv : ∀ (prs : List ParseResult) (st : BGPManagerState),
      perTypeSum st.stats ≤ dirSum st.stats →
      perTypeSum (List.foldl log_message st prs).stats ≤
        dirSum (List.foldl log_message st prs).stats := by
    intro prs
    induction prs with
    | nil => intro st h; simpa using h
    | cons pr rest ih =>
      intro st h
      simp only [List.foldl_cons]
      apply ih
      cases pr with
      | emptyDict => simpa [log_message] using h
      | msg m =>
        have := bumpStats_sums st.stats m
        simp only [log_message]
        omega
  refine ⟨fun st prs => hmono prs st, ?_, ?_⟩
  · intro st prs hz
    apply hinv
    rw [hz]
    simp [perTypeSum, dirSum, initialStats]
  · intro st m hmt
    simp only [log_message, bumpStats, hmt]
    rw [if_neg (by decide), if_neg (by decide), if_neg (by decide),
      if_neg (by decide)]
    unfold dirSum
    split
    all_goals simp
    all_goals omega

/-- Witness for C10: one UNKNOWN record logged into a fresh manager
    keeps the per-type sum below the direction totals. -/
theorem c10_stats_invariants_witness :
    stIdle.stats = initialStats ∧
    perTypeSum (List.foldl log_message stIdle
      [ParseResult.msg (.unknownMsg 5 "received" "UNKNOWN" [1, 2] "junk")]).stats ≤
      dirSum (List.foldl log_message stIdle
        [ParseResult.msg (.unknownMsg 5 "received" "UNKNOWN" [1, 2] "junk")]).stats :=
  ⟨rfl, c10_stats_invariants.2.1 stIdle
    [ParseResult.msg (.unknownMsg 5 "received" "UNKNOWN" [1, 2] "junk")] rfl⟩

/-- Success of the subscript model is exactly presence of the index. -/
theorem pyIndex_eq_ok (l : Bytes) (i : Nat) (b : Nat) :
    pyIndex l i = .ok b ↔ l[i]? = some b := by
  unfold pyIndex
  cases h : l[i]? <;> simp

/-- Subscripting depends only on the byte suffix being read. -/
theorem pyIndex_shift (l1 l2 : Bytes) (p1 p2 : Nat)
    (hag : ∀ k, l1[p1 + k]? = l2[p2 + k]?) (a : Nat) :
    pyIndex l2 (p2 + a) = pyIndex l1 (p1 + a) := by
  unfold pyIndex
  rw [hag a]

/-- Slicing depends only on the byte suffix being read. -/
theorem pySlice_shift (l1 l2 : List Nat) (p1 p2 : Nat)
    (hag : ∀ k, l1[p1 + k]? = l2[p2 + k]?) (a b : Nat) :
    pySlice l2 (p2 + a) (p2 + b) = pySlice l1 (p1 + a) (p1 + b) := by
  apply List.ext_getElem?
  intro i
  unfold pySlice
  rw [List.getElem?_drop, List.getElem?_drop, List.getElem?_take,
    List.getElem?_take]
  by_cases h : a + i < b
  · rw [if_pos (by omega), if_pos (by omega), Nat.add_assoc p2 a i,
      Nat.add_assoc p1 a i]
    exact (hag (a + i)).symm
  · rw [if_neg (by omega), if_neg (by omega)]

/-- The two-byte unpack succeeds exactly on two-byte buffers. -/
theorem unpackH_eq_ok (l : Bytes) (v : Nat) :
    unpackH l = .ok v ↔ ∃ x y, l = [x, y] ∧ v = 256 * x + y := by
  unfold unpackH
  rcases l with _ | ⟨x, _ | ⟨y, _ | ⟨z, t⟩⟩⟩ <;> simp
  constructor
  · intro h
    exact ⟨x, y, ⟨rfl, rfl⟩, h.symm⟩
  · rintro ⟨x1, y1, ⟨hx, hy⟩, hv⟩
    subst hx
    subst hy
    exact hv.symm

/-- Elements of a slice in terms of the sliced list. -/
theorem pySlice_getElem? (l : List Nat) (a b i : Nat) :
    (pySlice l a b)[i]? = if a + i < b then l[a + i]? else none := by
  unfold pySlice
  rw [List.getElem?_drop, List.getElem?_take]

/-- A successful attrStep whose flags byte has bit 0x10 clear read its
    length from the single byte at pos + 2 and consumed a three-byte
    header before the value. -/
theorem attrStep_std_spec (payload : Bytes) (pos : Nat) (flags : Nat)
    (hflags : payload[pos]? = some flags) (hbit : flags &&& 16 = 0)
    (a : PathAttr) (next : Nat) (hstep : attrStep payload pos = .ok (a, next)) :
    a.flags = flags ∧ payload[pos + 2]? = some a.length ∧
      next = pos + 3 + a.length := by
  unfold attrStep at hstep
  rw [show pyIndex payload pos = .ok flags from (pyIndex_eq_ok _ _ _).mpr hflags]
    at hstep
  dsimp only at hstep
  cases hc : pyIndex payload (pos + 1) with
  | error e => rw [hc] at hstep; exact absurd hstep (by simp)
  | ok code =>
    rw [hc] at hstep
    dsimp only at hstep
    rw [if_neg (by simpa using hbit)] at hstep
    cases hl : pyIndex payload (pos + 2) with
    | error e => rw [hl] at hstep; exact absurd hstep (by simp)
    | ok attr_len =>
      rw [hl] at hstep
      dsimp only at hstep
      cases hr : decode_path_attribute code
          (pySlice payload (pos + 3) (pos + 3 + attr_len)) with
      | error e => rw [hr] at hstep; exact absurd hstep (by simp)
      | ok readable =>
        rw [hr] at hstep
        dsimp only at hstep
        simp only [Except.ok.injEq, Prod.mk.injEq] at hstep
        obtain ⟨ha, hnext⟩ := hstep
        subst ha
        refine ⟨rfl, ?_, hnext.symm⟩
        exact (pyIndex_eq_ok _ _ _).mp hl

/-- A successful attrStep whose flags byte has bit 0x10 set read its
    length big-endian from the two bytes at pos + 2 and pos + 3 and
    consumed a four-byte header before the value. -/
theorem attrStep_ext_spec (payload : Bytes) (pos : Nat) (flags : Nat)
    (hflags : payload[pos]? = some flags) (hbit : flags &&& 16 ≠ 0)
    (a : PathAttr) (next : Nat) (hstep : attrStep payload pos = .ok (a, next)) :
    a.flags = flags ∧
      (∃ hi lo, payload[pos + 2]? = some hi ∧ payload[pos + 3]? = some lo ∧
        a.length = 256 * hi + lo) ∧
      next = pos + 4 + a.length := by
  unfold attrStep at hstep
  rw [show pyIndex payload pos = .ok flags from (pyIndex_eq_ok _ _ _).mpr hflags]
    at hstep
  dsimp only at hstep
  cases hc : pyIndex payload (pos + 1) with
  | error e => rw [hc] at hstep; exact absurd hstep (by simp)
  | ok code =>
    rw [hc] at hstep
    dsimp only at hstep
    rw [if_pos hbit] at hstep
    cases hl : unpackH (pySlice payload (pos + 2) (pos + 4)) with
    | error e => rw [hl] at hstep; exact absurd hstep (by simp)
    | ok attr_len =>
      rw [hl] at hstep
      dsimp only at hstep
      cases hr : decode_path_attribute code
          (pySlice payload (pos + 4) (pos + 4 + attr_len)) with
      | error e => rw [hr] at hstep; exact absurd hstep (by simp)
      | ok readable =>
        rw [hr] at hstep
        dsimp only at hstep
        simp only [Except.ok.injEq, Prod.mk.injEq] at hstep
        obtain ⟨ha, hnext⟩ := hstep
        subst ha
        refine ⟨rfl, ?_, hnext.symm⟩
        obtain ⟨x, y, hxy, hv⟩ := (unpackH_eq_ok _ _).mp hl
        refine ⟨x, y, ?_, ?_, hv⟩
        · have h0 := pySlice_getElem? payload (pos + 2) (pos + 4) 0
          rw [hxy, if_pos (by omega)] at h0
          simpa using h0.symm
        · have h1 := pySlice_getElem? payload (pos + 2) (pos + 4) 1
          rw [hxy, if_pos (by omega)] at h1
          rw [show pos + 2 + 1 = pos + 3 from by omega] at h1
          simpa using h1.symm

/-- attrStep reads nothing before its own position: two byte strings
    agreeing from the entry on parse to the same attribute, with the
    continuation position shifted accordingly. -/
theorem attrStep_shift (payload : Bytes) (pos : Nat)
    (payload2 : Bytes) (pos2 : Nat)
    (hag : ∀ k, payload[pos + k]? = payload2[pos2 + k]?) :
    attrStep payload2 pos2 =
      (attrStep payload pos).map (fun an => (an.1, pos2 + (an.2 - pos))) := by
  have h0 : pyIndex payload2 pos2 = pyIndex payload pos := by
    have := pyIndex_shift payload payload2 pos pos2 hag 0
    simpa using this
  have h1 : pyIndex payload2 (pos2 + 1) = pyIndex payload (pos + 1) :=
    pyIndex_shift payload payload2 pos pos2 hag 1
  have h2 : pyIndex payload2 (pos2 + 2) = pyIndex payload (pos + 2) :=
    pyIndex_shift payload payload2 pos pos2 hag 2
  have hsl24 : pySlice payload2 (pos2 + 2) (pos2 + 4) =
      pySlice payload (pos + 2) (pos + 4) :=
    pySlice_shift payload payload2 pos pos2 hag 2 4
  unfold attrStep
  rw [h0, h1, h2, hsl24]
  cases hf : pyIndex payload pos with
  | error e => rfl
  | ok flags =>
    dsimp only
    cases hc : pyIndex payload (pos + 1) with
    | error e => rfl
    | ok code =>
      dsimp only
      by_cases hb : flags &&& 16 ≠ 0
      · rw [if_pos hb, if_pos hb]
        cases hl : unpackH (pySlice payload (pos + 2) (pos + 4)) with
        | error e => rfl
        | ok attr_len =>
          dsimp only
          have hsl4 : pySlice payload2 (pos2 + 4) (pos2 + 4 + attr_len) =
              pySlice payload (pos + 4) (pos + 4 + attr_len) := by
            have := pySlice_shift payload payload2 pos pos2 hag 4 (4 + attr_len)
            rwa [← Nat.add_assoc, ← Nat.add_assoc] at this
          rw [hsl4]
          cases hr : decode_path_attribute code
              (pySlice payload (pos + 4) (pos + 4 + attr_len)) with
          | error e => rfl
          | ok readable =>
            dsimp only
            simp only [Except.map]
            congr 2
            omega
      · rw [if_neg hb, if_neg hb]
        cases hl : pyIndex payload (pos + 2) with
        | error e => rfl
        | ok attr_len =>
          dsimp only
          have hsl3 : pySlice payload2 (pos2 + 3) (pos2 + 3 + attr_len) =
              pySlice payload (pos + 3) (pos + 3 + attr_len) := by
            have := pySlice_shift payload payload2 pos pos2 hag 3 (3 + attr_len)
            rwa [← Nat.add_assoc, ← Nat.add_assoc] at this
          rw [hsl3]
          cases hr : decode_path_attribute code
              (pySlice payload (pos + 3) (pos + 3 + attr_len)) with
          | error e => rfl
          | ok readable =>
            dsimp only
            simp only [Except.map]
            congr 2
            omega

/-- C6: in the path-attribute loop the width of an entry's length field
    is decided solely by bit 0x10 of that entry's own flags byte - one
    byte at offset 2 when clear, two big-endian bytes at offsets 2 and 3
    when set, with the header accordingly three or four bytes - and the
    parse of an entry is independent of every other attribute: it is a
    function of the bytes from the entry's own position on, wherever the
    entry sits in the message. -/
theorem c6_attr_length_width (payload : Bytes) (pos : Nat) (flags : Nat)
    (hflags : payload[pos]? = some flags) :
    ((flags &&& 16 = 0) → ∀ a next, attrStep payload pos = .ok (a, next) →
      a.flags = flags ∧ payload[pos + 2]? = some a.length ∧
      next = pos + 3 + a.length) ∧
    ((flags &&& 16 ≠ 0) → ∀ a next, attrStep payload pos = .ok (a, next) →
      a.flags = flags ∧
      (∃ hi lo, payload[pos + 2]? = some hi ∧ payload[pos + 3]? = some lo ∧
        a.length = 256 * hi + lo) ∧
      next = pos + 4 + a.length) ∧
    (∀ (payload2 : Bytes) (pos2 : Nat),
      (∀ k, payload[pos + k]? = payload2[pos2 + k]?) →
      attrStep payload2 pos2 =
        (attrStep payload pos).map (fun an => (an.1, pos2 + (an.2 - pos)))) :=
  ⟨fun hbit a next hstep =>
      attrStep_std_spec payload pos flags hflags hbit a next hstep,
    fun hbit a next hstep =>
      attrStep_ext_spec payload pos flags hflags hbit a next hstep,
    fun payload2 pos2 hag => attrStep_shift payload pos payload2 pos2 hag⟩

/-- Witness for C6 on a one-attribute payload with the standard one-byte
    length field. -/
theorem c6_attr_length_width_witness :
    (([64, 1, 1, 0] : Bytes))[0]? = some 64 ∧ (64 : Nat) &&& 16 = 0 ∧
    attrStep [64, 1, 1, 0] 0 = .ok (⟨64, 1, 1, "00", "ORIGIN=IGP"⟩, 4) ∧
    (([64, 1, 1, 0] : Bytes))[0 + 2]? =
      some (PathAttr.length ⟨64, 1, 1, "00", "ORIGIN=IGP"⟩) :=
  ⟨rfl, by decide, by rfl,
    ((c6_attr_length_width [64, 1, 1, 0] 0 64 rfl).1 (by decide)
      ⟨64, 1, 1, "00", "ORIGIN=IGP"⟩ 4 (by rfl)).2.1⟩

end SdetNet
